import Mathlib

/-!
Verification development for the senlin clustering control plane.

The engine behavior around cluster actions (`senlin/engine/actions/cluster_action.py`
and `senlin/common/scaleutils.py`) is not part of the source tree available here;
only its unit tests (`senlin/tests/unit/engine/actions/test_cluster_action.py`)
are.  Those parts are modelled from the specification, with the exact result
codes and message strings pinned by the in-tree unit tests where the two
disagree.  The API layer (`senlin/api/openstack/v1/clusters.py`), the
cluster-policy binding (`senlin/engine/cluster_policy.py`) and the LB member
policy (`senlin/policies/lb_member_policy_v1.py`) are embedded directly from
their sources.
-/

namespace Senlin

/-- Result codes surfaced by actions (`RES_OK`, `RES_ERROR`, `RES_RETRY`,
`RES_CANCEL`, `RES_TIMEOUT`), per spec section 4.3 and the action base class. -/
inductive ResultCode where
  | RES_OK
  | RES_ERROR
  | RES_RETRY
  | RES_CANCEL
  | RES_TIMEOUT
  deriving DecidableEq, Repr

/-- Action statuses from the spec data model (section 3, Action). -/
inductive ActionStatus where
  | INIT
  | READY
  | WAITING
  | RUNNING
  | SUSPENDED
  | SUCCEEDED
  | FAILED
  | CANCELLED
  deriving DecidableEq, Repr

/- ===================== C3: waiting loop for dependents ===================== -/

/-- One observation made by the parent action at the top of its waiting loop:
its own status as derived from the dependent children (`get_status`), together
with the cooperative cancellation flag (`is_cancelled`) and the deadline flag
(`is_timeout`) at that poll. -/
structure WaitObs where
  status : ActionStatus
  cancelled : Bool
  timedOut : Bool
  deriving DecidableEq, Repr

/-- Modelled from the spec: `ClusterAction._wait_for_dependents` in
`senlin/engine/actions/cluster_action.py` is absent from the source tree.
The loop polls the parent status; `READY` means every dependent succeeded and
the loop returns `RES_OK`; `FAILED` means some dependent failed and the loop
returns `RES_ERROR` with message `<action> [<id>] failed`; otherwise the
cancellation flag and then the timeout flag are consulted, and when neither is
set the action yields (`scheduler.reschedule`) and polls again.  The message of
the `RES_OK` branch is pinned by the in-tree unit test
`ClusterActionWaitTest.test_wait_dependents` (scenario `wait_ready`) to
`All dependents ended with success`, where the spec text says the empty string.
The function consumes the finite list of observations the loop will make and
returns the loop result (`none` when the observations are exhausted while the
loop is still waiting) together with the number of reschedules performed. -/
def wait_for_dependents (actionName actionId : String) :
    List WaitObs → Option (ResultCode × String) × Nat
  | [] => (none, 0)
  | o :: rest =>
    if o.status = ActionStatus.READY then
      (some (ResultCode.RES_OK, "All dependents ended with success"), 0)
    else if o.status = ActionStatus.FAILED then
      (some (ResultCode.RES_ERROR, actionName ++ " [" ++ actionId ++ "] failed"), 0)
    else if o.cancelled then
      (some (ResultCode.RES_CANCEL, actionName ++ " [" ++ actionId ++ "] cancelled"), 0)
    else if o.timedOut then
      (some (ResultCode.RES_TIMEOUT, actionName ++ " [" ++ actionId ++ "] timeout"), 0)
    else
      let r := wait_for_dependents actionName actionId rest
      (r.1, r.2 + 1)

/- ===================== C1: execute wrapper and cluster lock ===================== -/

/-- Result of `senlin_lock.cluster_lock_acquire`: the cluster-scope lock is
exclusive; acquisition succeeds when no other action holds it, or when the
acquisition is forced (which steals the lock). -/
def cluster_lock_acquire (heldByOther : Bool) (forced : Bool) : Bool :=
  !heldByOther || forced

/-- Environment for one call of `ClusterAction.execute`: the action name, whether
another action currently holds the cluster lock, and the result the inner
`_execute` would produce if it ran. -/
structure ExecuteEnv where
  actionName : String
  lockHeldByOther : Bool
  innerResult : ResultCode × String
  deriving DecidableEq, Repr

/-- Outcome of `ClusterAction.execute`: the result code and reason, whether the
inner body ran, and whether the cluster lock was released at the end. -/
structure ExecuteOutcome where
  code : ResultCode
  reason : String
  innerRan : Bool
  lockReleased : Bool
  deriving DecidableEq, Repr

/-- Modelled from the spec: `ClusterAction.execute` in
`senlin/engine/actions/cluster_action.py` is absent from the source tree.
Section 4.5 gives the wrapper: acquire the cluster-scope lock, run the body,
release the lock.  The lock acquisition is forced exactly for `CLUSTER_DELETE`
(pinned by the unit tests `ClusterActionTest.test_execute`, forced `False` for
`CLUSTER_FLY`, and `ClusterActionTest.test_execute_failed_execute`, forced
`True` for `CLUSTER_DELETE`).  When acquisition fails the wrapper returns
`RES_ERROR` with reason `Failed in locking cluster.` as pinned by the in-tree
unit test `ClusterActionTest.test_execute_failed_locking`; the spec text
(section 7, lock busy) says `RES_RETRY` instead. -/
def cluster_action_execute (e : ExecuteEnv) : ExecuteOutcome :=
  let forced := e.actionName = "CLUSTER_DELETE"
  if cluster_lock_acquire e.lockHeldByOther forced then
    { code := e.innerResult.1, reason := e.innerResult.2,
      innerRan := true, lockReleased := true }
  else
    { code := ResultCode.RES_ERROR, reason := "Failed in locking cluster.",
      innerRan := false, lockReleased := false }

/- ===================== C2: policy checks around the body ===================== -/

/-- Policy check decision statuses written into `action.data` by the policy
engine (spec section 4.6). -/
inductive CheckStatus where
  | CHECK_OK
  | CHECK_ERROR
  deriving DecidableEq, Repr

/-- The decision a policy check leaves in `action.data`: a status and a
human-readable reason. -/
structure CheckDecision where
  status : CheckStatus
  reason : String
  deriving DecidableEq, Repr

/-- What the operation-specific body would do if dispatched: its result code and
reason, the node sub-actions it would spawn (by derived-action name), and
whether it would change the cluster status. -/
structure BodyBehavior where
  code : ResultCode
  reason : String
  spawns : List String
  changesClusterStatus : Bool
  deriving DecidableEq, Repr

/-- Outcome of `ClusterAction._execute`: result code and reason, the node
sub-actions actually spawned, and whether the cluster status was changed. -/
structure InnerOutcome where
  code : ResultCode
  reason : String
  spawned : List String
  clusterStatusChanged : Bool
  deriving DecidableEq, Repr

/-- Modelled from the spec: `ClusterAction._execute` in
`senlin/engine/actions/cluster_action.py` is absent from the source tree.
Section 4.5 gives the sequence: run the BEFORE policy check; when it leaves
`CHECK_ERROR` with reason R, fail with `RES_ERROR` and message
`Policy check failure: R` without dispatching the body; otherwise dispatch the
operation-specific body; after a successful body run the AFTER policy check and
fail the same way when it leaves `CHECK_ERROR`.  Message format pinned by the
unit tests `ClusterActionTest.test_execute_failed_policy_check` and
`ClusterActionTest.test_execute_post_check_failed`. -/
def cluster_action_inner (before : CheckDecision) (body : BodyBehavior)
    (after : CheckDecision) : InnerOutcome :=
  if before.status = CheckStatus.CHECK_ERROR then
    { code := ResultCode.RES_ERROR,
      reason := "Policy check failure: " ++ before.reason,
      spawned := [], clusterStatusChanged := false }
  else if body.code = ResultCode.RES_OK then
    if after.status = CheckStatus.CHECK_ERROR then
      { code := ResultCode.RES_ERROR,
        reason := "Policy check failure: " ++ after.reason,
        spawned := body.spawns, clusterStatusChanged := body.changesClusterStatus }
    else
      { code := body.code, reason := body.reason,
        spawned := body.spawns, clusterStatusChanged := body.changesClusterStatus }
  else
    { code := body.code, reason := body.reason,
      spawned := body.spawns, clusterStatusChanged := body.changesClusterStatus }

/- ===================== C5: CLUSTER_ADD_NODES validation ===================== -/

/-- Node statuses from the spec data model (section 3, Node). -/
inductive NodeStatus where
  | INIT
  | CREATING
  | ACTIVE
  | UPDATING
  | DELETING
  | ERROR
  | WARNING
  deriving DecidableEq, Repr

/-- The facts about a candidate node that `do_add_nodes` inspects after loading
it: its owning cluster id (none for an orphan) and its status. -/
structure CandidateNode where
  cluster_id : Option String
  status : NodeStatus
  deriving DecidableEq, Repr

/-- The node table visible to `Node.load`, as an association list from node id
to node; a missing id makes `Node.load` raise `NodeNotFound`. -/
def NodeTable := List (String × CandidateNode)

/-- Lookup in the node table, i.e. the effect of `node_mod.Node.load`. -/
def nodeLoad (db : NodeTable) (nodeId : String) : Option CandidateNode :=
  (db.find? (fun p => p.1 = nodeId)).map Prod.snd

/-- Modelled from the spec: the per-candidate validation of
`ClusterAction.do_add_nodes` in `senlin/engine/actions/cluster_action.py`,
absent from the source tree.  Each candidate must exist, be an orphan
(`cluster_id` null) and be in `ACTIVE` status; the error messages are pinned by
the unit tests `test_do_add_nodes_node_not_found`,
`test_do_add_nodes_node_already_member`,
`test_do_add_nodes_node_in_other_cluster` and
`test_do_add_nodes_node_not_active`.  Returns `none` when the candidate is
acceptable and the error message otherwise. -/
def validate_candidate (db : NodeTable) (nodeId : String) : Option String :=
  match nodeLoad db nodeId with
  | none => some ("Node [" ++ nodeId ++ "] is not found.")
  | some n =>
    match n.cluster_id with
    | some c =>
      some ("Node [" ++ nodeId ++ "] is already owned by cluster [" ++ c ++ "].")
    | none =>
      if n.status = NodeStatus.ACTIVE then none
      else some ("Node [" ++ nodeId ++ "] is not in ACTIVE status.")

/-- Outcome of `do_add_nodes`: result code, the validation error messages (empty
on success), the `NODE_JOIN` sub-actions spawned (target node ids), and the
`outputs.nodes_added` record. -/
structure AddNodesOutcome where
  code : ResultCode
  errors : List String
  spawnedJoins : List String
  nodesAdded : List String
  deriving DecidableEq, Repr

/-- Modelled from the spec: `ClusterAction.do_add_nodes` in
`senlin/engine/actions/cluster_action.py`, absent from the source tree.
All candidates are validated first; if any validation fails the whole action
returns `RES_ERROR` with the collected messages and no `NODE_JOIN` sub-action
is spawned for any node.  Otherwise one `NODE_JOIN` per node is spawned with
`inputs.cluster_id`, the parent waits, and on success records the node ids in
`outputs.nodes_added` with reason `Completed adding nodes.` (message pinned by
the unit test `test_do_add_nodes_single`).  `childWait` is the aggregated
result of waiting on the spawned children. -/
def do_add_nodes (db : NodeTable) (nodeIds : List String)
    (childWait : ResultCode × String) : AddNodesOutcome :=
  let errors := nodeIds.filterMap (validate_candidate db)
  if errors.isEmpty then
    if childWait.1 = ResultCode.RES_OK then
      { code := ResultCode.RES_OK, errors := [],
        spawnedJoins := nodeIds, nodesAdded := nodeIds }
    else
      { code := childWait.1, errors := [],
        spawnedJoins := nodeIds, nodesAdded := [] }
  else
    { code := ResultCode.RES_ERROR, errors := errors,
      spawnedJoins := [], nodesAdded := [] }

/- ===================== C6: CLUSTER_DELETE ===================== -/

/-- Cluster statuses from the spec data model (section 3, Cluster). -/
inductive ClusterStatus where
  | INIT
  | CREATING
  | ACTIVE
  | UPDATING
  | RESIZING
  | DELETING
  | WARNING
  | ERROR
  deriving DecidableEq, Repr

/-- The kind of delete sub-action `_delete_nodes` spawns per node. -/
inductive DeleteActionKind where
  | NODE_DELETE
  | NODE_LEAVE
  deriving DecidableEq, Repr

/-- The `deletion` entry of an action's policy-decision data that matters to
node deletion: whether deleted nodes are destroyed or merely detached. -/
structure DeletionData where
  destroy_after_deletion : Bool
  deriving DecidableEq, Repr

/-- The slice of the action's `data` mapping relevant to deletion decisions:
the optional `deletion` entry. -/
structure ActionData where
  deletion : Option DeletionData
  deriving DecidableEq, Repr

/-- Modelled from the spec: the sub-action kind chosen by
`ClusterAction._delete_nodes` in `senlin/engine/actions/cluster_action.py`,
absent from the source tree: `NODE_DELETE` when
`data.deletion.destroy_after_deletion` holds (the default when no deletion data
is present is pinned by the unit test `test__delete_nodes_single`, which spawns
`NODE_DELETE` with empty data), else `NODE_LEAVE` (pinned by
`test__delete_nodes_with_pd`). -/
def delete_action_kind (d : ActionData) : DeleteActionKind :=
  match d.deletion with
  | some pd =>
    if pd.destroy_after_deletion then DeleteActionKind.NODE_DELETE
    else DeleteActionKind.NODE_LEAVE
  | none => DeleteActionKind.NODE_DELETE

/-- Modelled from the spec: the aggregate result the parent observes from its
waiting loop once every spawned child has reached a terminal state and neither
cancellation nor timeout intervened: `RES_OK` when all children succeeded, else
`RES_ERROR` with the `<action> [<id>] failed` message of the waiting loop. -/
def wait_on_children (actionName actionId : String)
    (childResults : List ResultCode) : ResultCode × String :=
  if childResults.all (fun c => c = ResultCode.RES_OK) then
    (ResultCode.RES_OK, "All dependents ended with success")
  else
    (ResultCode.RES_ERROR, actionName ++ " [" ++ actionId ++ "] failed")

/-- Outcome of `do_delete`: result code and reason, the cluster status updates
performed (status with reason), the delete sub-actions spawned (node id and
kind), the action data after the operation, and whether the cluster record was
deleted. -/
structure DeleteOutcome where
  code : ResultCode
  reason : String
  statusUpdates : List (ClusterStatus × String)
  spawned : List (String × DeleteActionKind)
  finalData : ActionData
  recordDeleted : Bool
  deriving DecidableEq, Repr

/-- Modelled from the spec: `ClusterAction.do_delete` in
`senlin/engine/actions/cluster_action.py`, absent from the source tree, with
the branch structure pinned by the unit tests `test_do_delete_success`,
`test_do_delete_failed_delete_nodes` and `test_do_delete_failed_delete_cluster`.
The cluster is first set to `DELETING` with reason `Deletion in progress.`;
then `self.data.update({'deletion': {'destroy_after_deletion': True}})`
replaces the whole `deletion` entry of the action data (so the flag is `True`
regardless of any policy-provided value); one delete sub-action is spawned per
current node with the kind chosen by `delete_action_kind` on the updated data;
the parent waits.  On `RES_OK` the cluster record is deleted (returning
`RES_ERROR` with `Cannot delete cluster object.` if the record deletion itself
fails); on `RES_CANCEL` the cluster is set back to `ACTIVE`; on `RES_ERROR` or
`RES_TIMEOUT` the cluster is set to `WARNING` and the record is kept; on
`RES_RETRY` nothing further happens.  `actionId` names the parent action;
`childResults` are the eventual results of the spawned children (one per node,
in order); `dbDeleteOk` tells whether the record deletion succeeds when
attempted. -/
def do_delete (actionId : String) (nodeIds : List String) (data : ActionData)
    (childResults : List ResultCode) (dbDeleteOk : Bool) : DeleteOutcome :=
  let reason := "Deletion in progress."
  let firstUpdate := (ClusterStatus.DELETING, reason)
  let data' : ActionData := { data with deletion := some { destroy_after_deletion := true } }
  let kind := delete_action_kind data'
  let spawned := nodeIds.map (fun n => (n, kind))
  let w := wait_on_children "CLUSTER_DELETE" actionId childResults
  if w.1 = ResultCode.RES_OK then
    if dbDeleteOk then
      { code := ResultCode.RES_OK, reason := w.2,
        statusUpdates := [firstUpdate], spawned := spawned,
        finalData := data', recordDeleted := true }
    else
      { code := ResultCode.RES_ERROR, reason := "Cannot delete cluster object.",
        statusUpdates := [firstUpdate], spawned := spawned,
        finalData := data', recordDeleted := false }
  else if w.1 = ResultCode.RES_CANCEL then
    { code := w.1, reason := w.2,
      statusUpdates := [firstUpdate, (ClusterStatus.ACTIVE, w.2)],
      spawned := spawned, finalData := data', recordDeleted := false }
  else if w.1 = ResultCode.RES_ERROR ∨ w.1 = ResultCode.RES_TIMEOUT then
    { code := w.1, reason := w.2,
      statusUpdates := [firstUpdate, (ClusterStatus.WARNING, w.2)],
      spawned := spawned, finalData := data', recordDeleted := false }
  else
    { code := w.1, reason := w.2, statusUpdates := [firstUpdate],
      spawned := spawned, finalData := data', recordDeleted := false }

/- ===================== size checking (shared by C4 and C7) ===================== -/

/-- An apostrophe character, used inside message strings. -/
def apos : String := String.singleton (Char.ofNat 39)

/-- The cluster properties the scaling code reads: identity, current desired
capacity, the size range, and the current member node ids (oldest first; a
node later in the list is newer). -/
structure ClusterState where
  id : String
  desired_capacity : Int
  min_size : Int
  max_size : Int
  nodes : List String
  deriving DecidableEq, Repr

/-- Modelled from the spec: the lower-bound half of
`senlin.common.scaleutils.check_size_params`, absent from the source tree.
When a new `min_size` accompanies the request the message speaks of the
specified min_size, otherwise of the cluster min_size; message texts pinned by
the unit tests `test_do_resize_failed_checking` and
`test_do_scale_in_failed_check`. -/
def check_min_size (c : ClusterState) (desired : Int) (minSize : Option Int) :
    Option String :=
  match minSize with
  | some m =>
    if desired < m then
      some ("The target capacity (" ++ toString desired ++
        ") is less than the specified min_size (" ++ toString m ++ ").")
    else none
  | none =>
    if desired < c.min_size then
      some ("The target capacity (" ++ toString desired ++
        ") is less than the cluster" ++ apos ++ "s min_size (" ++
        toString c.min_size ++ ").")
    else none

/-- Modelled from the spec: the upper-bound half of
`senlin.common.scaleutils.check_size_params`, absent from the source tree.
A negative max size means no upper bound (spec section 3, Cluster). -/
def check_max_size (c : ClusterState) (desired : Int) (maxSize : Option Int) :
    Option String :=
  match maxSize with
  | some x =>
    if 0 ≤ x ∧ x < desired then
      some ("The target capacity (" ++ toString desired ++
        ") is greater than the specified max_size (" ++ toString x ++ ").")
    else none
  | none =>
    if 0 ≤ c.max_size ∧ c.max_size < desired then
      some ("The target capacity (" ++ toString desired ++
        ") is greater than the cluster" ++ apos ++ "s max_size (" ++
        toString c.max_size ++ ").")
    else none

/-- Modelled from the spec: `senlin.common.scaleutils.check_size_params`,
absent from the source tree.  With `strict` set, the desired capacity is
validated against the provided size bounds (falling back to the cluster's
stored bounds); without `strict` the check passes and callers clamp instead
(spec section 4.5, CLUSTER_RESIZE steps 2 and 3).  Returns `none` when the
size is acceptable and an error message otherwise. -/
def check_size_params (c : ClusterState) (desired : Int)
    (minSize maxSize : Option Int) (strict : Bool) : Option String :=
  if strict then
    match check_min_size c desired minSize with
    | some msg => some msg
    | none => check_max_size c desired maxSize
  else none

/- ===================== C7: CLUSTER_SCALE_IN ===================== -/

/-- The `deletion` entry of the action data as consumed by `do_scale_in`:
an optional count, a grace period and candidate node ids. -/
structure ScaleInPolicyData where
  count : Option Int
  grace_period : Int
  candidates : List String
  deriving DecidableEq, Repr

/-- Outcome of `do_scale_in`: result code and reason, the node ids handed to
`_delete_nodes` (each spawning one `NODE_DELETE` sub-action), the desired
capacity committed on success, and the cluster status updates performed. -/
structure ScaleInOutcome where
  code : ResultCode
  reason : String
  victims : List String
  committedDesired : Option Int
  statusUpdates : List (ClusterStatus × String)
  deriving DecidableEq, Repr

/-- Modelled from the spec: `ClusterAction.do_scale_in` in
`senlin/engine/actions/cluster_action.py`, absent from the source tree, with
behavior pinned by the unit tests `test_do_scale_in_no_pd_with_input`,
`test_do_scale_in_invalid_count`, `test_do_scale_in_best_effort`,
`test_do_scale_in_failed_check` and `test_do_scale_in_failed_delete_nodes`.
The count comes from the request input when present, else from the policy
decision data (defaulting to the number of candidates or 1), else 1.  A
non-positive count is an immediate error.  The count is then capped at the
number of existing nodes, the resulting target size is validated against the
cluster bounds (best-effort shrinking: a cluster whose min_size permits it may
be emptied), victims are the policy candidates or, absent those, the newest
nodes; on a successful wait the cluster is set `ACTIVE` with
`Cluster scaling succeeded.` and the new desired capacity committed; a failed
wait other than `RES_RETRY` sets the cluster to `ERROR`.  `childWait` is the
aggregated result of waiting on the spawned deletions. -/
def do_scale_in (c : ClusterState) (inputCount : Option Int)
    (pd : Option ScaleInPolicyData) (childWait : ResultCode × String) :
    ScaleInOutcome :=
  let chosen : Int × List String :=
    match inputCount with
    | some n => (n, [])
    | none =>
      match pd with
      | some d =>
        (d.count.getD (if d.candidates.isEmpty then 1 else (d.candidates.length : Int)),
         d.candidates)
      | none => (1, [])
  let count := chosen.1
  let candidates := chosen.2
  if count ≤ 0 then
    { code := ResultCode.RES_ERROR,
      reason := "Invalid count (" ++ toString count ++ ") for scaling in.",
      victims := [], committedDesired := none, statusUpdates := [] }
  else
    let curr : Int := c.nodes.length
    let cappedCount := if curr < count then curr else count
    let newSize := curr - cappedCount
    match check_size_params c newSize none none true with
    | some msg =>
      { code := ResultCode.RES_ERROR, reason := msg,
        victims := [], committedDesired := none, statusUpdates := [] }
    | none =>
      let victims :=
        if candidates.isEmpty then c.nodes.reverse.take cappedCount.toNat
        else candidates
      if childWait.1 = ResultCode.RES_OK then
        { code := ResultCode.RES_OK, reason := "Cluster scaling succeeded.",
          victims := victims, committedDesired := some newSize,
          statusUpdates := [(ClusterStatus.ACTIVE, "Cluster scaling succeeded.")] }
      else if childWait.1 = ResultCode.RES_RETRY then
        { code := childWait.1, reason := childWait.2, victims := victims,
          committedDesired := none, statusUpdates := [] }
      else
        { code := childWait.1, reason := childWait.2, victims := victims,
          committedDesired := none,
          statusUpdates := [(ClusterStatus.ERROR, childWait.2)] }

/- ===================== C4: CLUSTER_RESIZE ===================== -/

/-- Resize adjustment kinds modelled: an absolute capacity or a signed delta.
The percentage adjustment of the source (floating-point arithmetic with a
minimum step) is not modelled. -/
inductive AdjustmentType where
  | EXACT_CAPACITY
  | CHANGE_IN_CAPACITY
  deriving DecidableEq, Repr

/-- A CLUSTER_RESIZE request: an optional adjustment (kind and number),
optional new size bounds, and the strict flag. -/
structure ResizeRequest where
  adjustment : Option (AdjustmentType × Int)
  min_size : Option Int
  max_size : Option Int
  strict : Bool
  deriving DecidableEq, Repr

/-- Modelled from the spec: the target-capacity computation of
`senlin.common.scaleutils.parse_resize_params`, absent from the source tree
(spec section 4.5, CLUSTER_RESIZE step 1).  Without an adjustment the target is
the current desired capacity (pinned by the unit test
`test_do_resize_failed_checking`, where a request carrying only `min_size` and
`strict` reports the current desired capacity 8 as the target). -/
def resize_target (c : ClusterState) (r : ResizeRequest) : Int :=
  match r.adjustment with
  | none => c.desired_capacity
  | some (AdjustmentType.EXACT_CAPACITY, n) => n
  | some (AdjustmentType.CHANGE_IN_CAPACITY, n) => c.desired_capacity + n

/-- Outcome of `do_resize`: result code and reason, the number of `NODE_CREATE`
sub-actions spawned, the node ids handed to deletion, and the desired capacity
committed on success. -/
structure ResizeOutcome where
  code : ResultCode
  reason : String
  spawnedCreates : Nat
  spawnedDeletes : List String
  committedDesired : Option Int
  deriving DecidableEq, Repr

/-- Modelled from the spec: `ClusterAction.do_resize` in
`senlin/engine/actions/cluster_action.py` together with
`scaleutils.parse_resize_params`, both absent from the source tree (spec
section 4.5, CLUSTER_RESIZE).  The request is parsed into a target capacity;
with `strict` set a target violating the requested (or stored) bounds is an
immediate error before any sub-action is spawned; without `strict` the target
is clamped into the bounds.  A positive delta spawns that many `NODE_CREATE`
children, a negative delta deletes the newest `|delta|` nodes, and on success
the new desired capacity is committed with reason `Cluster resize succeeded.`
(message pinned by the unit test `test_do_resize_shrink`).  `childWait` is the
aggregated result of waiting on the spawned children. -/
def do_resize (c : ClusterState) (r : ResizeRequest)
    (childWait : ResultCode × String) : ResizeOutcome :=
  let target := resize_target c r
  match check_size_params c target r.min_size r.max_size r.strict with
  | some msg =>
    { code := ResultCode.RES_ERROR, reason := msg,
      spawnedCreates := 0, spawnedDeletes := [], committedDesired := none }
  | none =>
    let lo := r.min_size.getD c.min_size
    let hi := r.max_size.getD c.max_size
    let clamped :=
      if r.strict then target
      else
        let t1 := if target < lo then lo else target
        if 0 ≤ hi ∧ hi < t1 then hi else t1
    let delta := clamped - c.desired_capacity
    if 0 < delta then
      if childWait.1 = ResultCode.RES_OK then
        { code := ResultCode.RES_OK, reason := "Cluster resize succeeded.",
          spawnedCreates := delta.toNat, spawnedDeletes := [],
          committedDesired := some clamped }
      else
        { code := childWait.1, reason := childWait.2,
          spawnedCreates := delta.toNat, spawnedDeletes := [],
          committedDesired := none }
    else if delta < 0 then
      let victims := c.nodes.reverse.take (-delta).toNat
      if childWait.1 = ResultCode.RES_OK then
        { code := ResultCode.RES_OK, reason := "Cluster resize succeeded.",
          spawnedCreates := 0, spawnedDeletes := victims,
          committedDesired := some clamped }
      else
        { code := childWait.1, reason := childWait.2,
          spawnedCreates := 0, spawnedDeletes := victims,
          committedDesired := none }
    else
      { code := ResultCode.RES_OK, reason := "Cluster resize succeeded.",
        spawnedCreates := 0, spawnedDeletes := [],
        committedDesired := some clamped }

/- ===================== C8: cluster-create admission checks ===================== -/

/-- The data accompanying a cluster create/update request, after JSON decoding:
`senlin/api/openstack/v1/clusters.py`, class `ClusterData`.  Integer-valued
fields are carried as integers here; `_enforce_data_types` validates their
signs. -/
structure ClusterData where
  name : Option String
  profile : Option String
  desired_capacity : Option Int
  min_size : Option Int
  max_size : Option Int
  deriving DecidableEq, Repr

/-- `ClusterData._enforce_data_types` (`senlin/api/openstack/v1/clusters.py`
lines 50-67): `desired_capacity` and `min_size` are parsed with
`allow_zero=True` (negative values rejected), `max_size` additionally with
`allow_negative=True`.  `senlin.common.utils.parse_int_param` itself is absent
from the source tree; its sign rules are modelled from its call signature, and
its error text is not modelled. -/
def enforce_data_types (d : ClusterData) : Except String Unit :=
  if d.desired_capacity.any (fun v => v < 0) then
    Except.error "Invalid value for desired_capacity"
  else if d.min_size.any (fun v => v < 0) then
    Except.error "Invalid value for min_size"
  else
    Except.ok ()

/-- `ClusterData.validate_for_create` (`senlin/api/openstack/v1/clusters.py`
lines 69-92): after type enforcement, reject a missing name, desired capacity
or profile; then reject `min_size > desired_capacity`; then reject a
non-negative `max_size < desired_capacity`.  Error messages are the source's
`HTTPBadRequest` texts. -/
def validate_for_create (d : ClusterData) : Except String Unit :=
  match enforce_data_types d with
  | Except.error e => Except.error e
  | Except.ok _ =>
    match d.name with
    | none => Except.error "No cluster name specified."
    | some _ =>
      match d.desired_capacity with
      | none => Except.error "No cluster desired capacity provided."
      | some dc =>
        match d.profile with
        | none => Except.error "No cluster profile provided."
        | some _ =>
          if d.min_size.any (fun m => dc < m) then
            Except.error ("Cluster min_size, if specified, must be less than " ++
              "or equal to its desired capacity.")
          else if d.max_size.any (fun x => 0 ≤ x && x < dc) then
            Except.error ("Cluster max_size, if specified, must be greater than " ++
              "or equal to its desired capacity. Setting max_size " ++
              "to -1 means no upper limit on cluster size.")
          else
            Except.ok ()

/-- `ClusterController.create` (`senlin/api/openstack/v1/clusters.py` lines
181-202): the request body is validated with `validate_for_create` and only
then is the engine's `cluster_create` RPC invoked.  `Except.ok` here means the
RPC (and hence cluster creation) is reached; an error means the request is
rejected with a bad-request response before any cluster is created. -/
def cluster_create_endpoint (d : ClusterData) : Except String Unit :=
  validate_for_create d

/- ===================== C9: LB member policy unbound name ===================== -/

/-- A node as seen by the LB member policy: its id and its free-form `data`
mapping (which may carry the `lb_member` entry). -/
structure LBNode where
  id : String
  data : List (String × String)
  deriving DecidableEq, Repr

/-- The local names bound in the body of `LBMemberPolicyV1._add_members`
(`senlin/policies/lb_member_policy_v1.py` lines 80-93) at the point of the
`LOG.info` call inside the loop: the method parameters `self`, `cluster` and
`nodes`, the locals `params` and `lb_driver`, and the loop variable `node`.
The name `node_id` used by the log line's argument mapping is not among them,
and it is not a module-level name either, so evaluating the mapping raises
`NameError`. -/
def add_members_scope : List String :=
  ["self", "cluster", "nodes", "params", "lb_driver", "node"]

/-- The local names bound in the body of `LBMemberPolicyV1._remove_members`
(`senlin/policies/lb_member_policy_v1.py` lines 95-105) at the point of the
`LOG.info` call: the method parameters and locals as in `_add_members`, plus
`member_id` (bound by the `node.data.pop` just above the log line).  The name
`node_id` is again not among them. -/
def remove_members_scope : List String :=
  ["self", "cluster", "nodes", "params", "lb_driver", "node", "member_id"]

/-- Resolution of a Python name against the bound locals (module-level lookup
yields nothing for `node_id` in this module). -/
def resolve_name (scope : List String) (n : String) : Bool :=
  scope.contains n

/-- State threaded through `_add_members`: the pool members registered via
`lb_driver.member_add` (member id paired with node id) and the nodes persisted
via `node.store`. -/
structure AddMembersState where
  registered : List (String × String)
  storedNodes : List LBNode
  deriving DecidableEq, Repr

/-- `LBMemberPolicyV1._add_members` (`senlin/policies/lb_member_policy_v1.py`
lines 80-93).  For each node the loop first evaluates the `LOG.info` call whose
argument mapping reads the name `node_id`; only if that name resolved would
`lb_driver.member_add` run, the returned member id be recorded in `node.data`
and the node be stored.  Because `node_id` is unbound, the first iteration
raises `NameError` (returned here as the error string) with the state — in
particular the set of registered pool members — unchanged. -/
def add_members : List LBNode → AddMembersState → AddMembersState × Option String
  | [], st => (st, none)
  | node :: rest, st =>
    if resolve_name add_members_scope "node_id" then
      let memberId := "member-of-" ++ node.id
      let stored := { node with data := node.data ++ [("lb_member", memberId)] }
      add_members rest
        { st with registered := st.registered ++ [(memberId, node.id)],
                  storedNodes := st.storedNodes ++ [stored] }
    else
      (st, some "NameError: name node_id is not defined")

/-- State threaded through `_remove_members`: the member ids removed from the
pool via `lb_driver.member_remove` and the nodes persisted via `node.store`
(with their `lb_member` entry popped). -/
structure RemoveMembersState where
  removedFromPool : List String
  storedNodes : List LBNode
  deriving DecidableEq, Repr

/-- The value under the `lb_member` key of a node's data, when present. -/
def lb_member_of (node : LBNode) : Option String :=
  (node.data.find? (fun p => p.1 = "lb_member")).map Prod.snd

/-- Whether a node's data carries the `lb_member` key. -/
def has_lb_member (node : LBNode) : Bool :=
  (lb_member_of node).isSome

/-- `LBMemberPolicyV1._remove_members` (`senlin/policies/lb_member_policy_v1.py`
lines 95-105).  Nodes without an `lb_member` entry are skipped.  For a node
carrying one, the loop pops the entry, stores the node, and then evaluates the
`LOG.info` call whose argument mapping reads the unbound name `node_id`; only
if that name resolved would `lb_driver.member_remove` run.  So the first such
node raises `NameError` after its record was stored without the entry but
before its pool member was removed. -/
def remove_members : List LBNode → RemoveMembersState → RemoveMembersState × Option String
  | [], st => (st, none)
  | node :: rest, st =>
    match lb_member_of node with
    | some memberId =>
      let stored := { node with data := node.data.filter (fun p => ¬ p.1 = "lb_member") }
      let st1 := { st with storedNodes := st.storedNodes ++ [stored] }
      if resolve_name remove_members_scope "node_id" then
        remove_members rest
          { st1 with removedFromPool := st1.removedFromPool ++ [memberId] }
      else
        (st1, some "NameError: name node_id is not defined")
    | none => remove_members rest st

/- ===================== C10: cluster-policy binding store/load ===================== -/

/-- A value stored into a column of the cluster-policy binding table. -/
inductive DBValue where
  | int (n : Int)
  | bool (b : Bool)
  | map (m : List (String × String))
  deriving DecidableEq, Repr

/-- The engine object for a cluster-policy binding
(`senlin/engine/cluster_policy.py`, class `ClusterPolicy`). -/
structure ClusterPolicy where
  id : Option String
  cluster_id : String
  policy_id : String
  cooldown : Int
  priority : Int
  level : Int
  enabled : Bool
  data : List (String × String)
  deriving DecidableEq, Repr

/-- The `values` dictionary built by `ClusterPolicy.store`
(`senlin/engine/cluster_policy.py` lines 45-53), in insertion order.  The
priority is recorded under the key `prirority`, exactly as in the source. -/
def store_values (b : ClusterPolicy) : List (String × DBValue) :=
  [("cooldown", DBValue.int b.cooldown),
   ("prirority", DBValue.int b.priority),
   ("level", DBValue.int b.level),
   ("enabled", DBValue.bool b.enabled),
   ("data", DBValue.map b.data)]

/-- A database record of the cluster-policy binding table, with the columns
`_from_db_record` reads (`senlin/engine/cluster_policy.py` lines 64-86);
the derived cluster/policy names are omitted here. -/
structure DBBindingRecord where
  id : String
  cluster_id : String
  policy_id : String
  cooldown : Int
  priority : Int
  level : Int
  enabled : Bool
  data : List (String × String)
  deriving DecidableEq, Repr

/-- Application of one entry of the `values` dictionary to the record, as done
by `db_api.cluster_policy_update`: a key matching a column updates that column;
a key matching no column (such as `prirority`) leaves every column unchanged
(the oslo model's `update` merely sets an attribute of that name on the
object). -/
def apply_value (r : DBBindingRecord) (kv : String × DBValue) : DBBindingRecord :=
  if kv.1 = "cooldown" then
    match kv.2 with | DBValue.int n => { r with cooldown := n } | _ => r
  else if kv.1 = "priority" then
    match kv.2 with | DBValue.int n => { r with priority := n } | _ => r
  else if kv.1 = "level" then
    match kv.2 with | DBValue.int n => { r with level := n } | _ => r
  else if kv.1 = "enabled" then
    match kv.2 with | DBValue.bool b => { r with enabled := b } | _ => r
  else if kv.1 = "data" then
    match kv.2 with | DBValue.map m => { r with data := m } | _ => r
  else r

/-- `db_api.cluster_policy_update` applied to the whole `values` dictionary of
`ClusterPolicy.store` (the update path, `self.id` set). -/
def cluster_policy_update (r : DBBindingRecord) (values : List (String × DBValue)) :
    DBBindingRecord :=
  values.foldl apply_value r

/-- `ClusterPolicy._from_db_record` (`senlin/engine/cluster_policy.py` lines
64-86): the loaded binding takes `cooldown`, `priority`, `level`, `enabled` and
`data` from the record's columns. -/
def from_db_record (r : DBBindingRecord) : ClusterPolicy :=
  { id := some r.id, cluster_id := r.cluster_id, policy_id := r.policy_id,
    cooldown := r.cooldown, priority := r.priority, level := r.level,
    enabled := r.enabled, data := r.data }

/-- A store-then-load round trip of an existing binding `b` over its database
record `r`: `b.store` writes `store_values b` through
`cluster_policy_update`, and `ClusterPolicy.load` reads the result back via
`_from_db_record`. -/
def store_then_load (b : ClusterPolicy) (r : DBBindingRecord) : ClusterPolicy :=
  from_db_record (cluster_policy_update r (store_values b))

/- ===================== Theorems ===================== -/

/-- C1, counterexample: a cluster action (here `CLUSTER_FLY`, not forced) whose
cluster lock acquisition fails because the lock is busy does NOT return
`RES_RETRY`; `execute` returns `RES_ERROR`, so the claim as stated is false. -/
theorem c1_lock_busy_counterexample :
    (cluster_action_execute
      { actionName := "CLUSTER_FLY", lockHeldByOther := true,
        innerResult := (ResultCode.RES_OK, "Good") }).code = ResultCode.RES_ERROR ∧
    ResultCode.RES_ERROR ≠ ResultCode.RES_RETRY := by
  decide

/-- C1, amended: for every cluster action whose cluster lock acquisition fails
because the lock is busy (and the action is not forced, i.e. it is not
`CLUSTER_DELETE`), `execute` returns `RES_ERROR` with the reason
`Failed in locking cluster.`, without running the inner body. -/
theorem c1_lock_busy_returns_error (e : ExecuteEnv)
    (hbusy : e.lockHeldByOther = true)
    (hnotforced : e.actionName ≠ "CLUSTER_DELETE") :
    cluster_action_execute e =
      { code := ResultCode.RES_ERROR, reason := "Failed in locking cluster.",
        innerRan := false, lockReleased := false } := by
  simp [cluster_action_execute, cluster_lock_acquire, hbusy, hnotforced]

/-- C1, witness: the amended theorem evaluated at a concrete busy-lock call. -/
theorem c1_lock_busy_returns_error_witness :
    cluster_action_execute
      { actionName := "CLUSTER_FLY", lockHeldByOther := true,
        innerResult := (ResultCode.RES_OK, "Good") } =
      { code := ResultCode.RES_ERROR, reason := "Failed in locking cluster.",
        innerRan := false, lockReleased := false } :=
  c1_lock_busy_returns_error _ rfl (by decide)

/-- C2: when the BEFORE-phase policy check leaves `CHECK_ERROR` with reason R,
`_execute` returns `RES_ERROR` with message `Policy check failure: R`, spawns
no node sub-action and leaves the cluster status unchanged; and when the
AFTER-phase check leaves `CHECK_ERROR` after a successful body, the same
`RES_ERROR` with `Policy check failure: R` is returned. -/
theorem c2_policy_veto (before : CheckDecision) (body : BodyBehavior)
    (after : CheckDecision) (r : String) :
    (before.status = CheckStatus.CHECK_ERROR → before.reason = r →
      cluster_action_inner before body after =
        { code := ResultCode.RES_ERROR, reason := "Policy check failure: " ++ r,
          spawned := [], clusterStatusChanged := false }) ∧
    (before.status = CheckStatus.CHECK_OK → body.code = ResultCode.RES_OK →
      after.status = CheckStatus.CHECK_ERROR → after.reason = r →
      (cluster_action_inner before body after).code = ResultCode.RES_ERROR ∧
      (cluster_action_inner before body after).reason = "Policy check failure: " ++ r) := by
  constructor
  · intro h1 h2
    simp [cluster_action_inner, h1, h2]
  · intro h1 h2 h3 h4
    simp [cluster_action_inner, h1, h2, h3, h4]

/-- C2, witness: the veto theorem evaluated at the concrete decision of the
unit test `test_execute_failed_policy_check`. -/
theorem c2_policy_veto_witness :
    cluster_action_inner
      { status := CheckStatus.CHECK_ERROR, reason := "Something is wrong." }
      { code := ResultCode.RES_OK, reason := "Good!",
        spawns := ["node_create_1"], changesClusterStatus := true }
      { status := CheckStatus.CHECK_OK, reason := "" } =
      { code := ResultCode.RES_ERROR,
        reason := "Policy check failure: " ++ "Something is wrong.",
        spawned := [], clusterStatusChanged := false } :=
  (c2_policy_veto _ _ _ "Something is wrong.").1 rfl rfl

/-- C3, counterexample: when all dependents have succeeded the waiting loop
returns `RES_OK` with the message `All dependents ended with success`, not the
empty string claimed. -/
theorem c3_wait_ok_message_counterexample :
    (wait_for_dependents "ACTION" "FAKE_ID"
      [{ status := ActionStatus.READY, cancelled := false, timedOut := false }]).1 =
      some (ResultCode.RES_OK, "All dependents ended with success") ∧
    "All dependents ended with success" ≠ "" := by
  constructor
  · rfl
  · decide

/-- C3, amended: at each poll the waiting loop returns
(`RES_OK`, `All dependents ended with success`) when all dependents have
succeeded (parent status `READY`), (`RES_ERROR`, `<name> [<id>] failed`) as
soon as a dependent has failed, (`RES_CANCEL`, `<name> [<id>] cancelled`) when
the cancellation flag is observed, (`RES_TIMEOUT`, `<name> [<id>] timeout`)
when the deadline is exceeded, and otherwise reschedules and polls again. -/
theorem c3_wait_loop_spec (name id : String) (o : WaitObs) (rest : List WaitObs) :
    (o.status = ActionStatus.READY →
      wait_for_dependents name id (o :: rest) =
        (some (ResultCode.RES_OK, "All dependents ended with success"), 0)) ∧
    (o.status = ActionStatus.FAILED →
      wait_for_dependents name id (o :: rest) =
        (some (ResultCode.RES_ERROR, name ++ " [" ++ id ++ "] failed"), 0)) ∧
    (o.status ≠ ActionStatus.READY → o.status ≠ ActionStatus.FAILED →
      o.cancelled = true →
      wait_for_dependents name id (o :: rest) =
        (some (ResultCode.RES_CANCEL, name ++ " [" ++ id ++ "] cancelled"), 0)) ∧
    (o.status ≠ ActionStatus.READY → o.status ≠ ActionStatus.FAILED →
      o.cancelled = false → o.timedOut = true →
      wait_for_dependents name id (o :: rest) =
        (some (ResultCode.RES_TIMEOUT, name ++ " [" ++ id ++ "] timeout"), 0)) ∧
    (o.status ≠ ActionStatus.READY → o.status ≠ ActionStatus.FAILED →
      o.cancelled = false → o.timedOut = false →
      wait_for_dependents name id (o :: rest) =
        ((wait_for_dependents name id rest).1,
         (wait_for_dependents name id rest).2 + 1)) := by
  refine ⟨?_, ?_, ?_, ?_, ?_⟩ <;> intros <;> simp_all [wait_for_dependents]

/-- C3, witness: the loop theorem evaluated at the `wait_fail` scenario of the
unit test (one poll observing a failed dependent). -/
theorem c3_wait_loop_spec_witness :
    wait_for_dependents "ACTION" "FAKE_ID"
      [{ status := ActionStatus.FAILED, cancelled := false, timedOut := false }] =
      (some (ResultCode.RES_ERROR, "ACTION" ++ " [" ++ "FAKE_ID" ++ "] failed"), 0) :=
  (c3_wait_loop_spec "ACTION" "FAKE_ID" _ []).2.1 rfl

/-- C10: `ClusterPolicy.store` writes the priority under the misspelled key
`prirority` and writes no `priority` key, while `_from_db_record` reads the
record's `priority` column; hence a store-then-load round trip leaves the
loaded priority equal to the record's old priority — losing the binding's
priority whenever it differed — while cooldown, level, enabled and data all
round-trip. -/
theorem c10_priority_not_round_tripped (b : ClusterPolicy) (r : DBBindingRecord) :
    (store_values b).map Prod.fst = ["cooldown", "prirority", "level", "enabled", "data"] ∧
    "priority" ∉ (store_values b).map Prod.fst ∧
    (store_then_load b r).cooldown = b.cooldown ∧
    (store_then_load b r).level = b.level ∧
    (store_then_load b r).enabled = b.enabled ∧
    (store_then_load b r).data = b.data ∧
    (store_then_load b r).priority = r.priority ∧
    (b.priority ≠ r.priority → (store_then_load b r).priority ≠ b.priority) := by
  refine ⟨rfl, by simp [store_values], rfl, rfl, rfl, rfl, rfl, ?_⟩
  intro hne
  show r.priority ≠ b.priority
  exact fun h => hne h.symm

/-- C10, witness: the round-trip theorem evaluated on a binding whose priority
(60) differs from its record's stored priority (50). -/
theorem c10_priority_not_round_tripped_witness :
    (store_then_load
      { id := some "B1", cluster_id := "C1", policy_id := "P1", cooldown := 10,
        priority := 60, level := 30, enabled := true, data := [("k", "v")] }
      { id := "B1", cluster_id := "C1", policy_id := "P1", cooldown := 0,
        priority := 50, level := 0, enabled := false, data := [] }).priority = 50 ∧
    (store_then_load
      { id := some "B1", cluster_id := "C1", policy_id := "P1", cooldown := 10,
        priority := 60, level := 30, enabled := true, data := [("k", "v")] }
      { id := "B1", cluster_id := "C1", policy_id := "P1", cooldown := 0,
        priority := 50, level := 0, enabled := false, data := [] }).priority ≠ 60 :=
  ⟨(c10_priority_not_round_tripped _ _).2.2.2.2.2.2.1,
   (c10_priority_not_round_tripped _ _).2.2.2.2.2.2.2 (by decide)⟩

/-- The lower-bound check passes exactly when the desired capacity reaches the
effective minimum (the requested one, falling back to the cluster's). -/
theorem check_min_size_eq_none_iff (c : ClusterState) (t : Int) (ms : Option Int) :
    check_min_size c t ms = none ↔ ms.getD c.min_size ≤ t := by
  cases ms <;> simp [check_min_size]

/-- The upper-bound check passes exactly when the effective maximum is negative
(unbounded) or not exceeded. -/
theorem check_max_size_eq_none_iff (c : ClusterState) (t : Int) (ms : Option Int) :
    check_max_size c t ms = none ↔
      ms.getD c.max_size < 0 ∨ t ≤ ms.getD c.max_size := by
  cases ms <;> (simp [check_max_size]; omega)

/-- With `strict` set, a target below the effective minimum or above a
non-negative effective maximum makes `check_size_params` report an error. -/
theorem check_size_params_strict_err (c : ClusterState) (t : Int)
    (minSize maxSize : Option Int)
    (hviol : t < minSize.getD c.min_size ∨
      (0 ≤ maxSize.getD c.max_size ∧ maxSize.getD c.max_size < t)) :
    ∃ msg, check_size_params c t minSize maxSize true = some msg := by
  unfold check_size_params
  rcases h1 : check_min_size c t minSize with _ | msg
  · rcases h2 : check_max_size c t maxSize with _ | msg
    · exfalso
      rw [check_min_size_eq_none_iff] at h1
      rw [check_max_size_eq_none_iff] at h2
      omega
    · exact ⟨msg, by simp⟩
  · exact ⟨msg, by simp⟩

/-- C4: a strict CLUSTER_RESIZE whose computed target capacity lies outside the
effective [min_size, max_size] range fails with `RES_ERROR` before spawning
any node sub-action (no node is created or deleted and no capacity committed);
when the violated bound is a min_size specified in the request the message is
`The target capacity (T) is less than the specified min_size (M).`. -/
theorem c4_resize_strict_out_of_range (c : ClusterState) (r : ResizeRequest)
    (w : ResultCode × String)
    (hstrict : r.strict = true)
    (hviol : resize_target c r < r.min_size.getD c.min_size ∨
      (0 ≤ r.max_size.getD c.max_size ∧
       r.max_size.getD c.max_size < resize_target c r)) :
    (do_resize c r w).code = ResultCode.RES_ERROR ∧
    (do_resize c r w).spawnedCreates = 0 ∧
    (do_resize c r w).spawnedDeletes = [] ∧
    (do_resize c r w).committedDesired = none ∧
    (∀ m, r.min_size = some m → resize_target c r < m →
      (do_resize c r w).reason =
        "The target capacity (" ++ toString (resize_target c r) ++
        ") is less than the specified min_size (" ++ toString m ++ ").") := by
  obtain ⟨msg, hmsg⟩ := check_size_params_strict_err c (resize_target c r)
    r.min_size r.max_size hviol
  have hmsg' : check_size_params c (resize_target c r) r.min_size r.max_size
      r.strict = some msg := by rw [hstrict]; exact hmsg
  refine ⟨?_, ?_, ?_, ?_, ?_⟩
  · simp [do_resize, hmsg']
  · simp [do_resize, hmsg']
  · simp [do_resize, hmsg']
  · simp [do_resize, hmsg']
  · intro m hm hlt
    have hmin : check_min_size c (resize_target c r) r.min_size =
        some ("The target capacity (" ++ toString (resize_target c r) ++
          ") is less than the specified min_size (" ++ toString m ++ ").") := by
      simp [check_min_size, hm, hlt]
    have hfull : check_size_params c (resize_target c r) r.min_size r.max_size
        r.strict = some ("The target capacity (" ++ toString (resize_target c r) ++
          ") is less than the specified min_size (" ++ toString m ++ ").") := by
      rw [hstrict]
      unfold check_size_params
      simp [hmin]
    simp [do_resize, hfull]

/-- C4, witness: the strict-resize theorem evaluated at the scenario of the
unit test `test_do_resize_failed_checking` (desired 8, request min_size 10). -/
theorem c4_resize_strict_out_of_range_witness :
    (do_resize
      { id := "CID", desired_capacity := 8, min_size := 1, max_size := 10,
        nodes := [] }
      { adjustment := none, min_size := some 10, max_size := none,
        strict := true }
      (ResultCode.RES_OK, "")).code = ResultCode.RES_ERROR ∧
    (do_resize
      { id := "CID", desired_capacity := 8, min_size := 1, max_size := 10,
        nodes := [] }
      { adjustment := none, min_size := some 10, max_size := none,
        strict := true }
      (ResultCode.RES_OK, "")).spawnedDeletes = [] ∧
    (do_resize
      { id := "CID", desired_capacity := 8, min_size := 1, max_size := 10,
        nodes := [] }
      { adjustment := none, min_size := some 10, max_size := none,
        strict := true }
      (ResultCode.RES_OK, "")).reason =
      "The target capacity (8) is less than the specified min_size (10)." := by
  have h := c4_resize_strict_out_of_range
    { id := "CID", desired_capacity := 8, min_size := 1, max_size := 10,
      nodes := [] }
    { adjustment := none, min_size := some 10, max_size := none,
      strict := true }
    (ResultCode.RES_OK, "") rfl (by decide)
  refine ⟨h.1, h.2.2.1, ?_⟩
  have hm := h.2.2.2.2 10 rfl (by decide)
  simpa using hm

/-- C5: a candidate passes `do_add_nodes` validation exactly when it exists, is
an orphan and is `ACTIVE`; a candidate owned by cluster C contributes the
`already owned` message; and as soon as any candidate fails validation the
whole action returns `RES_ERROR` with no `NODE_JOIN` spawned for any node and
nothing recorded in `outputs.nodes_added`. -/
theorem c5_add_nodes_atomic_validation (db : NodeTable) (nodeIds : List String)
    (w : ResultCode × String) :
    (∀ x, validate_candidate db x = none ↔
      ∃ n, nodeLoad db x = some n ∧ n.cluster_id = none ∧
        n.status = NodeStatus.ACTIVE) ∧
    (∀ x cid n, x ∈ nodeIds → nodeLoad db x = some n → n.cluster_id = some cid →
      ("Node [" ++ x ++ "] is already owned by cluster [" ++ cid ++ "].") ∈
        (do_add_nodes db nodeIds w).errors) ∧
    ((∃ x, x ∈ nodeIds ∧ validate_candidate db x ≠ none) →
      (do_add_nodes db nodeIds w).code = ResultCode.RES_ERROR ∧
      (do_add_nodes db nodeIds w).spawnedJoins = [] ∧
      (do_add_nodes db nodeIds w).nodesAdded = []) := by
  refine ⟨?_, ?_, ?_⟩
  · intro x
    unfold validate_candidate
    rcases h : nodeLoad db x with _ | n
    · simp
    · rcases hc : n.cluster_id with _ | cid
      · by_cases hs : n.status = NodeStatus.ACTIVE <;> simp [hs, hc]
      · simp [hc]
  · intro x cid n hx hload hcid
    have hval : validate_candidate db x =
        some ("Node [" ++ x ++ "] is already owned by cluster [" ++ cid ++ "].") := by
      simp [validate_candidate, hload, hcid]
    have hmem : ("Node [" ++ x ++ "] is already owned by cluster [" ++ cid ++ "].") ∈
        nodeIds.filterMap (validate_candidate db) :=
      List.mem_filterMap.mpr ⟨x, hx, hval⟩
    have hne : (nodeIds.filterMap (validate_candidate db)).isEmpty = false := by
      rcases hl : nodeIds.filterMap (validate_candidate db) with _ | ⟨a, l⟩
      · rw [hl] at hmem; cases hmem
      · rfl
    simpa [do_add_nodes, hne] using hmem
  · rintro ⟨x, hx, hval⟩
    obtain ⟨msg, hmsg⟩ := Option.ne_none_iff_exists'.mp hval
    have hmem : msg ∈ nodeIds.filterMap (validate_candidate db) :=
      List.mem_filterMap.mpr ⟨x, hx, hmsg⟩
    have hne : (nodeIds.filterMap (validate_candidate db)).isEmpty = false := by
      rcases hl : nodeIds.filterMap (validate_candidate db) with _ | ⟨a, l⟩
      · rw [hl] at hmem; cases hmem
      · rfl
    simp [do_add_nodes, hne]

/-- C5, witness: the theorem evaluated at the scenario of the unit test
`test_do_add_nodes_node_in_other_cluster` (one candidate already owned by
another cluster). -/
theorem c5_add_nodes_atomic_validation_witness :
    ("Node [" ++ "NODE_1" ++ "] is already owned by cluster [" ++
      "ANOTHER_CLUSTER" ++ "].") ∈
      (do_add_nodes
        [("NODE_1", { cluster_id := some "ANOTHER_CLUSTER",
                      status := NodeStatus.ACTIVE })]
        ["NODE_1"] (ResultCode.RES_OK, "")).errors ∧
    (do_add_nodes
      [("NODE_1", { cluster_id := some "ANOTHER_CLUSTER",
                    status := NodeStatus.ACTIVE })]
      ["NODE_1"] (ResultCode.RES_OK, "")).code = ResultCode.RES_ERROR ∧
    (do_add_nodes
      [("NODE_1", { cluster_id := some "ANOTHER_CLUSTER",
                    status := NodeStatus.ACTIVE })]
      ["NODE_1"] (ResultCode.RES_OK, "")).spawnedJoins = [] := by
  have h := c5_add_nodes_atomic_validation
    [("NODE_1", { cluster_id := some "ANOTHER_CLUSTER",
                  status := NodeStatus.ACTIVE })]
    ["NODE_1"] (ResultCode.RES_OK, "")
  refine ⟨h.2.1 "NODE_1" "ANOTHER_CLUSTER" _ (by decide) rfl rfl, ?_, ?_⟩
  · exact (h.2.2 ⟨"NODE_1", by decide, by decide⟩).1
  · exact (h.2.2 ⟨"NODE_1", by decide, by decide⟩).2.1

/-- C6, counterexample: a CLUSTER_DELETE whose action data carries
`deletion.destroy_after_deletion = false` still spawns `NODE_DELETE` (not the
claimed `NODE_LEAVE`), because `do_delete` overwrites the `deletion` entry with
`destroy_after_deletion = true` before spawning. -/
theorem c6_delete_kind_counterexample :
    (do_delete "AID" ["NODE_1"]
      { deletion := some { destroy_after_deletion := false } }
      [ResultCode.RES_OK] true).spawned =
      [("NODE_1", DeleteActionKind.NODE_DELETE)] ∧
    DeleteActionKind.NODE_DELETE ≠ DeleteActionKind.NODE_LEAVE := by
  constructor
  · rfl
  · decide

/-- C6, amended: every CLUSTER_DELETE first sets the cluster to `DELETING`
(reason `Deletion in progress.`) and spawns one `NODE_DELETE` sub-action per
current node — `do_delete` overwrites `deletion.destroy_after_deletion` to
true, so `NODE_LEAVE` is never chosen regardless of the policy data; when
every child returns `RES_OK` the cluster record is deleted, and when some
child returns a non-OK result the waiting loop reports `RES_ERROR`, the
cluster is set to `WARNING` and the record is not deleted. -/
theorem c6_delete_spec (aid : String) (nodeIds : List String) (data : ActionData)
    (childResults : List ResultCode) (dbDeleteOk : Bool) :
    ((do_delete aid nodeIds data childResults dbDeleteOk).statusUpdates.head? =
      some (ClusterStatus.DELETING, "Deletion in progress.")) ∧
    ((do_delete aid nodeIds data childResults dbDeleteOk).spawned =
      nodeIds.map (fun n => (n, DeleteActionKind.NODE_DELETE))) ∧
    (childResults.all (fun c => c = ResultCode.RES_OK) = true → dbDeleteOk = true →
      (do_delete aid nodeIds data childResults dbDeleteOk).recordDeleted = true ∧
      (do_delete aid nodeIds data childResults dbDeleteOk).code = ResultCode.RES_OK) ∧
    (childResults.all (fun c => c = ResultCode.RES_OK) = false →
      (do_delete aid nodeIds data childResults dbDeleteOk).recordDeleted = false ∧
      (do_delete aid nodeIds data childResults dbDeleteOk).code = ResultCode.RES_ERROR ∧
      (do_delete aid nodeIds data childResults dbDeleteOk).statusUpdates =
        [(ClusterStatus.DELETING, "Deletion in progress."),
         (ClusterStatus.WARNING, "CLUSTER_DELETE [" ++ aid ++ "] failed")]) := by
  refine ⟨?_, ?_, ?_, ?_⟩
  · unfold do_delete
    rcases h : childResults.all (fun c => c = ResultCode.RES_OK) <;>
      simp [wait_on_children, h, delete_action_kind] <;>
      cases dbDeleteOk <;> simp
  · unfold do_delete
    rcases h : childResults.all (fun c => c = ResultCode.RES_OK) <;>
      simp [wait_on_children, h, delete_action_kind] <;>
      cases dbDeleteOk <;> simp
  · intro hall hdb
    unfold do_delete
    simp [wait_on_children, hall, hdb, delete_action_kind]
  · intro hall
    unfold do_delete
    simp [wait_on_children, hall, delete_action_kind]

/-- C6, witness: the amended theorem evaluated at two concrete runs — two nodes
whose deletions both succeed (record deleted) and one whose single deletion
fails (cluster set to `WARNING`, record kept). -/
theorem c6_delete_spec_witness :
    (do_delete "AID" ["NODE_1", "NODE_2"] { deletion := none }
      [ResultCode.RES_OK, ResultCode.RES_OK] true).recordDeleted = true ∧
    (do_delete "AID" ["NODE_1", "NODE_2"] { deletion := none }
      [ResultCode.RES_OK, ResultCode.RES_OK] true).spawned =
      [("NODE_1", DeleteActionKind.NODE_DELETE),
       ("NODE_2", DeleteActionKind.NODE_DELETE)] ∧
    (do_delete "AID" ["NODE_1"] { deletion := none }
      [ResultCode.RES_ERROR] true).recordDeleted = false ∧
    (do_delete "AID" ["NODE_1"] { deletion := none }
      [ResultCode.RES_ERROR] true).statusUpdates =
      [(ClusterStatus.DELETING, "Deletion in progress."),
       (ClusterStatus.WARNING, "CLUSTER_DELETE [" ++ "AID" ++ "] failed")] := by
  have h1 := c6_delete_spec "AID" ["NODE_1", "NODE_2"] { deletion := none }
    [ResultCode.RES_OK, ResultCode.RES_OK] true
  have h2 := c6_delete_spec "AID" ["NODE_1"] { deletion := none }
    [ResultCode.RES_ERROR] true
  exact ⟨(h1.2.2.1 (by decide) rfl).1, h1.2.1,
    (h2.2.2.2 (by decide)).1, (h2.2.2.2 (by decide)).2.2⟩

/-- C7: a CLUSTER_SCALE_IN whose requested count exceeds the number of
existing nodes, on a cluster whose min_size permits an empty cluster,
succeeds: the count is capped at the current size, every existing node is
deleted (the victims are exactly the node list, newest first) and the desired
capacity is committed to 0. -/
theorem c7_scale_in_best_effort (c : ClusterState) (n : Int)
    (pd : Option ScaleInPolicyData) (w : ResultCode × String)
    (hmin : c.min_size ≤ 0)
    (hcount : (c.nodes.length : Int) < n)
    (hchild : w.1 = ResultCode.RES_OK) :
    (do_scale_in c (some n) pd w).code = ResultCode.RES_OK ∧
    (do_scale_in c (some n) pd w).reason = "Cluster scaling succeeded." ∧
    (do_scale_in c (some n) pd w).victims = c.nodes.reverse ∧
    (do_scale_in c (some n) pd w).victims.Perm c.nodes ∧
    (do_scale_in c (some n) pd w).committedDesired = some 0 := by
  have hlen : (0 : Int) ≤ (c.nodes.length : Int) := Int.natCast_nonneg _
  have h1 : ¬ n ≤ 0 := by omega
  have h3 : ¬ ((0 : Int) < c.min_size) := by omega
  have h4 : ¬ ((0 : Int) ≤ c.max_size ∧ c.max_size < 0) := by omega
  have h5 : c.nodes.reverse.take c.nodes.length = c.nodes.reverse := by
    rw [← List.length_reverse]
    exact List.take_length _
  have hout : do_scale_in c (some n) pd w =
      { code := ResultCode.RES_OK, reason := "Cluster scaling succeeded.",
        victims := c.nodes.reverse, committedDesired := some 0,
        statusUpdates := [(ClusterStatus.ACTIVE, "Cluster scaling succeeded.")] } := by
    unfold do_scale_in
    simp [h1, hcount, check_size_params, check_min_size, check_max_size,
      h3, h4, h5, hchild, sub_self]
  rw [hout]
  exact ⟨rfl, rfl, rfl, by simpa using (List.reverse_perm c.nodes), rfl⟩

/-- C7, witness: the best-effort theorem evaluated at the scenario of the unit
test `test_do_scale_in_best_effort` (two nodes, count 3, min_size 0). -/
theorem c7_scale_in_best_effort_witness :
    (do_scale_in
      { id := "CID", desired_capacity := 2, min_size := 0, max_size := -1,
        nodes := ["NODE_ID_1", "NODE_ID_2"] }
      (some 3) none (ResultCode.RES_OK, "Deletion done.")).code =
      ResultCode.RES_OK ∧
    (do_scale_in
      { id := "CID", desired_capacity := 2, min_size := 0, max_size := -1,
        nodes := ["NODE_ID_1", "NODE_ID_2"] }
      (some 3) none (ResultCode.RES_OK, "Deletion done.")).victims =
      ["NODE_ID_2", "NODE_ID_1"] ∧
    (do_scale_in
      { id := "CID", desired_capacity := 2, min_size := 0, max_size := -1,
        nodes := ["NODE_ID_1", "NODE_ID_2"] }
      (some 3) none (ResultCode.RES_OK, "Deletion done.")).committedDesired =
      some 0 := by
  have h := c7_scale_in_best_effort
    { id := "CID", desired_capacity := 2, min_size := 0, max_size := -1,
      nodes := ["NODE_ID_1", "NODE_ID_2"] }
    3 none (ResultCode.RES_OK, "Deletion done.") (by decide) (by decide) rfl
  exact ⟨h.1, h.2.2.1, h.2.2.2.2⟩

/-- C8: the cluster-create admission checks enforce the size invariant: a
request with `min_size > desired_capacity`, or with a non-negative
`max_size < desired_capacity`, never reaches the engine's `cluster_create`
RPC (the endpoint does not return ok, so no cluster is created), while a
complete request with `min_size ≤ desired_capacity ≤ max_size` (or
`max_size = -1`) passes the checks and reaches the RPC. -/
theorem c8_create_size_admission (d : ClusterData) (dc : Int) :
    (∀ m, d.desired_capacity = some dc → d.min_size = some m → dc < m →
      cluster_create_endpoint d ≠ Except.ok ()) ∧
    (∀ x, d.desired_capacity = some dc → d.max_size = some x → 0 ≤ x → x < dc →
      cluster_create_endpoint d ≠ Except.ok ()) ∧
    (∀ nm pf m x,
      d = { name := some nm, profile := some pf, desired_capacity := some dc,
            min_size := some m, max_size := some x } →
      0 ≤ m → m ≤ dc → (x = -1 ∨ (0 ≤ x ∧ dc ≤ x)) →
      cluster_create_endpoint d = Except.ok ()) := by
  refine ⟨?_, ?_, ?_⟩
  · intro m hd hm hlt
    unfold cluster_create_endpoint validate_for_create enforce_data_types
    by_cases hdc0 : dc < 0
    · simp [hd, hdc0]
    · have hm0 : ¬ m < 0 := by omega
      rcases hn : d.name with _ | nm
      all_goals rcases hp : d.profile with _ | pf
      all_goals simp [hd, hm, hdc0, hm0, hlt, hn, hp]
  · intro x hd hx h0x hlt
    unfold cluster_create_endpoint validate_for_create enforce_data_types
    by_cases hdc0 : dc < 0
    · simp [hd, hdc0]
    · rcases hn : d.name with _ | nm
      all_goals rcases hp : d.profile with _ | pf
      all_goals rcases hmn : d.min_size with _ | m
      all_goals try simp [hd, hx, hdc0, hn, hp, hmn, h0x, hlt]
      all_goals by_cases hm0 : m < 0
      all_goals try simp [hd, hx, hdc0, hn, hp, hmn, hm0, h0x, hlt]
      all_goals by_cases hmlt : dc < m
      all_goals simp [hd, hx, hdc0, hn, hp, hmn, hm0, hmlt, h0x, hlt]
  · intro nm pf m x hdeq h0m hmdc hx
    subst hdeq
    have hdc0 : ¬ dc < 0 := by omega
    have hm0 : ¬ m < 0 := by omega
    have hmdc' : ¬ dc < m := by omega
    have hmax : ¬ (0 ≤ x ∧ x < dc) := by rcases hx with h | h <;> omega
    simp [cluster_create_endpoint, validate_for_create, enforce_data_types,
      hdc0, hm0, hmdc', hmax]

/-- C8, witness: the admission theorem evaluated at a rejected request
(desired 1, min_size 2) and at an accepted one (desired 2 within [1, 3]). -/
theorem c8_create_size_admission_witness :
    cluster_create_endpoint
      { name := some "c1", profile := some "p1", desired_capacity := some 1,
        min_size := some 2, max_size := none } ≠ Except.ok () ∧
    cluster_create_endpoint
      { name := some "c1", profile := some "p1", desired_capacity := some 2,
        min_size := some 1, max_size := some 3 } = Except.ok () := by
  constructor
  · exact (c8_create_size_admission
      { name := some "c1", profile := some "p1", desired_capacity := some 1,
        min_size := some 2, max_size := none } 1).1 2 rfl rfl (by decide)
  · exact (c8_create_size_admission
      { name := some "c1", profile := some "p1", desired_capacity := some 2,
        min_size := some 1, max_size := some 3 } 2).2.2 "c1" "p1" 1 3 rfl
      (by decide) (by decide) (Or.inr (by constructor <;> decide))

/-- C9: the LB member policy's managing loops read the unbound name `node_id`
in their log lines: `_add_members` fails with a `NameError` on any non-empty
node list before registering any pool member, and `_remove_members` fails with
the same `NameError` whenever some node carries `lb_member` data, before any
pool member is removed. -/
theorem c9_lb_member_unbound_name :
    (∀ node rest st, add_members (node :: rest) st =
      (st, some "NameError: name node_id is not defined")) ∧
    (∀ nodes st, (∃ node, node ∈ nodes ∧ has_lb_member node = true) →
      (remove_members nodes st).2 = some "NameError: name node_id is not defined" ∧
      (remove_members nodes st).1.removedFromPool = st.removedFromPool) := by
  have hres1 : resolve_name add_members_scope "node_id" = false := by decide
  have hres2 : resolve_name remove_members_scope "node_id" = false := by decide
  constructor
  · intro node rest st
    simp [add_members, hres1]
  · intro nodes
    induction nodes with
    | nil =>
      intro st h
      rcases h with ⟨node, hmem, _⟩
      cases hmem
    | cons nd rest ih =>
      intro st h
      rcases hlb : lb_member_of nd with _ | mid
      · have hstep : remove_members (nd :: rest) st = remove_members rest st := by
          simp [remove_members, hlb]
        rcases h with ⟨node, hmem, hnode⟩
        rcases List.mem_cons.mp hmem with heq | hmem'
        · exfalso
          subst heq
          rw [has_lb_member, hlb] at hnode
          cases hnode
        · rw [hstep]
          exact ih st ⟨node, hmem', hnode⟩
      · constructor
        · simp [remove_members, hlb, hres2]
        · simp [remove_members, hlb, hres2]

/-- C9, witness: the unbound-name theorem evaluated on one node for each loop:
`_add_members` errors with the state untouched, and `_remove_members` on a node
carrying `lb_member` errors with no pool member removed. -/
theorem c9_lb_member_unbound_name_witness :
    add_members [{ id := "NODE_X", data := [] }]
      { registered := [], storedNodes := [] } =
      ({ registered := [], storedNodes := [] },
       some "NameError: name node_id is not defined") ∧
    (remove_members [{ id := "NODE_Y", data := [("lb_member", "M1")] }]
      { removedFromPool := [], storedNodes := [] }).2 =
      some "NameError: name node_id is not defined" ∧
    (remove_members [{ id := "NODE_Y", data := [("lb_member", "M1")] }]
      { removedFromPool := [], storedNodes := [] }).1.removedFromPool = [] := by
  have h2 := c9_lb_member_unbound_name.2
    [{ id := "NODE_Y", data := [("lb_member", "M1")] }]
    { removedFromPool := [], storedNodes := [] }
    ⟨{ id := "NODE_Y", data := [("lb_member", "M1")] }, by decide, by decide⟩
  exact ⟨c9_lb_member_unbound_name.1 _ [] _, h2.1, h2.2⟩

end Senlin
